import Mathlib

/-
Verification development for the cloudwalk-ai-assistant repository.

The embedding models the conversation-understanding and retrieval pipeline:
  - src/language_manager.py : pattern-based language detection and the
    LanguageManager state (default/current language, history);
  - src/chatbot_engine.py   : intent classification, knowledge search
    arguments, prompt assembly and the response orchestrator;
  - src/knowledge_base.py   : knowledge documents and the custom-knowledge
    insertion path.

Modelling conventions:
  - Python strings are `List Char` (named `Txt`); language and role codes,
    which are only compared for equality, are `String`.
  - Python floats are modelled as exact rationals (`Rat`); the constants
    0.5, 0.6 and 0.7 of the source become 1/2, 6/10 and 7/10.
  - The regular expressions of the source are all of the shape
    backslash-b (alt1 | alt2 | ...) backslash-b with literal alternatives
    (the character class obrigad[oa] and the optional suffix of vocês? are
    expanded into their alternatives in backtracking preference order), so
    the matcher below implements exactly word-boundary-delimited literal
    alternation with left-to-right non-overlapping scanning, which is what
    re.findall / re.search compute on these patterns.
  - Word characters are ASCII alphanumerics, the underscore and the accented
    Latin letters that occur in the repository's patterns; Python's lower()
    is modelled on the same alphabet.
  - datetime.now() values are opaque `Nat` timestamps passed in as `now`.
  - The external collaborators (the Groq LLM and the chroma vector store)
    are parameters of the orchestrator, as §6 of the spec prescribes.
-/

/-! ## Text primitives -/

/-- Python text as a list of characters. -/
abbrev Txt := List Char

/-- The accented Latin letters occurring in the repository's patterns and
documents, lower case followed by upper case. Python's `\w` treats all of
them as word characters. -/
def accentedLetters : List Char :=
  ['á', 'à', 'â', 'ã', 'ç', 'é', 'ê', 'í', 'ó', 'ô', 'õ', 'ú',
   'Á', 'À', 'Â', 'Ã', 'Ç', 'É', 'Ê', 'Í', 'Ó', 'Ô', 'Õ', 'Ú']

/-- Python str.lower restricted to the alphabet in play: ASCII letters and
the accented Latin letters of the patterns. -/
def lowerChar (c : Char) : Char :=
  if c = 'Á' then 'á' else if c = 'À' then 'à' else if c = 'Â' then 'â'
  else if c = 'Ã' then 'ã' else if c = 'Ç' then 'ç' else if c = 'É' then 'é'
  else if c = 'Ê' then 'ê' else if c = 'Í' then 'í' else if c = 'Ó' then 'ó'
  else if c = 'Ô' then 'ô' else if c = 'Õ' then 'õ' else if c = 'Ú' then 'ú'
  else c.toLower

/-- text.lower() -/
def toLowerTxt (s : Txt) : Txt := s.map lowerChar

/-- A word character for the regex `\b` boundary: ASCII alphanumeric,
underscore, or an accented letter (Python `\w` on the alphabet in play). -/
def isWordChar (c : Char) : Bool :=
  c.isAlphanum || c = '_' || accentedLetters.contains c

/-- Python str.split() whitespace (ASCII part). -/
def isPySpace (c : Char) : Bool :=
  c = ' ' || c = '\t' || c = '\n' || c = '\r' ||
    c = Char.ofNat 11 || c = Char.ofNat 12

/-- Helper of `splitWs`: accumulates the current word reversed. -/
def splitWsAux : List Char → List Char → List (List Char)
  | [], acc => if acc.isEmpty then [] else [acc.reverse]
  | c :: rest, acc =>
    if isPySpace c then
      if acc.isEmpty then splitWsAux rest []
      else acc.reverse :: splitWsAux rest []
    else splitWsAux rest (c :: acc)

/-- Python text.split() with no argument: split on runs of whitespace,
dropping empty fields. -/
def splitWs (s : Txt) : List Txt := splitWsAux s []

/-! ## Word-boundary alternation matching (the regex fragment in use) -/

/-- Whether position `i` of `s` holds a word character (`false` out of
range). -/
def isWordCharAt (s : Txt) (i : Nat) : Bool :=
  match s.get? i with
  | some c => isWordChar c
  | none => false

/-- The regex `\b` word boundary at position `i` (between characters `i-1`
and `i`, with the outside of the string non-word). -/
def isBoundary (s : Txt) (i : Nat) : Bool :=
  (match i with
   | 0 => false
   | Nat.succ j => isWordCharAt s j) != isWordCharAt s i

/-- Whether the literal `alt` occurs in `s` starting at position `i`. -/
def litAt (s alt : Txt) (i : Nat) : Bool :=
  (s.drop i).take alt.length == alt

/-- Backtracking match of the pattern `\b(alt1|...|altN)\b` anchored at
position `i`: the first alternative (in preference order) that occurs at `i`
and is followed by a word boundary; `none` when there is no match at `i`. -/
def firstAltLen (s : Txt) (alts : List Txt) (i : Nat) : Option Nat :=
  if isBoundary s i then
    alts.findSome? fun alt =>
      if litAt s alt i && isBoundary s (i + alt.length) then some alt.length
      else none
  else none

/-- Helper of `countMatches`: scans start positions left to right, skipping
over each match (non-overlapping), with fuel bounding the scan. -/
def countMatchesAux (s : Txt) (alts : List Txt) : Nat → Nat → Nat
  | 0, _ => 0
  | Nat.succ fuel, i =>
    match firstAltLen s alts i with
    | some len => 1 + countMatchesAux s alts fuel (i + len)
    | none => if i < s.length then countMatchesAux s alts fuel (i + 1) else 0

/-- len(re.findall(pattern, s)) for a word-boundary alternation pattern:
the number of non-overlapping matches, scanning left to right. -/
def countMatches (alts : List Txt) (s : Txt) : Nat :=
  countMatchesAux s alts (s.length + 1) 0

/-- re.search(pattern, s) is not None, for a word-boundary alternation
pattern: some start position carries a match. -/
def hasMatch (alts : List Txt) (s : Txt) : Bool :=
  (List.range (s.length + 1)).any fun i => (firstAltLen s alts i).isSome

/-! ## src/language_manager.py — LANGUAGE_PATTERNS and detection -/

/-- The pt-BR entry of LANGUAGE_PATTERNS: each regex as its list of literal
alternatives in preference order; `obrigad[oa]` expands to obrigado,
obrigada and `vocês?` to vocês, você (greedy option first). -/
def ptPatterns : List (List Txt) :=
  [(["olá", "oi", "bom dia", "boa tarde", "boa noite", "obrigado",
     "obrigada", "por favor", "tchau", "até", "vocês", "você", "está",
     "estou", "são", "sou", "meu", "minha", "nosso", "nossa"].map
      String.data),
   (["maquininha", "cartão", "pagamento", "taxa", "pix", "boleto", "conta",
     "dinheiro", "receber", "vender", "comprar"].map String.data),
   (["fazer", "querer", "poder", "precisar", "ter", "ser", "estar"].map
      String.data),
   (["não", "sim", "talvez", "claro", "certo", "errado"].map String.data)]

/-- The pt-BR stop words. -/
def ptStopWords : List Txt :=
  ["de", "da", "do", "a", "o", "um", "uma", "para", "com", "em", "no",
   "na"].map String.data

/-- The en entry of LANGUAGE_PATTERNS. -/
def enPatterns : List (List Txt) :=
  [(["hello", "hi", "good morning", "good afternoon", "good evening",
     "thanks", "thank you", "please", "bye", "goodbye", "you", "your",
     "are", "am", "is", "my", "our"].map String.data),
   (["card", "payment", "fee", "rate", "account", "money", "receive",
     "sell", "buy", "terminal"].map String.data),
   (["do", "want", "can", "need", "have", "be"].map String.data),
   (["no", "yes", "maybe", "sure", "right", "wrong"].map String.data)]

/-- The en stop words. -/
def enStopWords : List Txt :=
  ["the", "a", "an", "to", "for", "with", "in", "on", "at"].map String.data

/-- The keys of LANGUAGE_PATTERNS, in declaration order. -/
def languagePatternKeys : List String := ["pt-BR", "en"]

/-- LanguageDetectionResult of src/language_manager.py. -/
structure LanguageDetectionResult where
  detected_language : String
  confidence : ℚ
  alternative_language : Option String := none
  alternative_confidence : Option ℚ := none
  deriving DecidableEq, Repr

/-- Total count of regex matches of a profile's patterns on the lower-cased
text (the `matches` accumulator of detect_language). -/
def patternMatchTotal (patterns : List (List Txt)) (text : Txt) : Nat :=
  (patterns.map fun p => countMatches p (toLowerTxt text)).sum

/-- Count of whitespace-split words of the lower-cased text that are stop
words of the profile (the `stop_word_matches` sum of detect_language). -/
def stopWordTotal (stops : List Txt) (text : Txt) : Nat :=
  ((splitWs (toLowerTxt text)).filter fun w => stops.contains w).length

/-- The whitespace token count of the lower-cased text (len(words)). -/
def tokenCount (text : Txt) : Nat := (splitWs (toLowerTxt text)).length

/-- One language's normalized score in detect_language:
score = 2 * pattern matches + stop-word matches, divided by the token count
when it is positive, 0 otherwise. -/
def normScore (patterns : List (List Txt)) (stops : List Txt)
    (text : Txt) : ℚ :=
  let score : Nat := 2 * patternMatchTotal patterns text + stopWordTotal stops text
  if tokenCount text > 0 then (score : ℚ) / (tokenCount text : ℚ) else 0

/-- LanguageManager.detect_language. LANGUAGE_PATTERNS holds exactly the
profiles pt-BR and en, in that declaration order; Python's stable
descending sort therefore puts en first exactly when its score is strictly
greater. The confidence formula divides by the constant 0.5 and caps at 1;
the alternative is populated when the runner-up has positive score and its
ratio to the top score exceeds 0.7. -/
def detect_language (default_language : String) (text : Txt) :
    LanguageDetectionResult :=
  let sPt := normScore ptPatterns ptStopWords text
  let sEn := normScore enPatterns enStopWords text
  let sorted_scores :=
    if sEn > sPt then [("en", sEn), ("pt-BR", sPt)]
    else [("pt-BR", sPt), ("en", sEn)]
  match sorted_scores with
  | [] => { detected_language := default_language, confidence := 0 }
  | (top_lang, top_score) :: rest =>
    if top_score = 0 then
      { detected_language := default_language, confidence := 0 }
    else
      let confidence := min (top_score / (1/2 : ℚ)) 1
      match rest with
      | [] => { detected_language := top_lang, confidence := confidence }
      | (alt_lang, alt_score) :: _ =>
        if alt_score > 0 then
          if alt_score / top_score > 7/10 then
            { detected_language := top_lang, confidence := confidence,
              alternative_language := some alt_lang,
              alternative_confidence := some (min (alt_score / (1/2 : ℚ)) 1) }
          else { detected_language := top_lang, confidence := confidence }
        else { detected_language := top_lang, confidence := confidence }

/-- LanguageManager state: default_language, current_language and
language_history (src/language_manager.py). -/
structure LanguageManager where
  default_language : String
  current_language : String
  language_history : List String
  deriving DecidableEq, Repr

/-- LanguageManager.__init__(default_language). -/
def LanguageManager.init (default_language : String) : LanguageManager :=
  { default_language := default_language,
    current_language := default_language,
    language_history := [] }

/-- LanguageManager.set_language: updates current_language and appends to
language_history only when the code is a key of LANGUAGE_PATTERNS. -/
def set_language (m : LanguageManager) (language : String) : LanguageManager :=
  if language ∈ languagePatternKeys then
    { m with current_language := language,
             language_history := m.language_history ++ [language] }
  else m

/-- The module-level singleton `language_manager = LanguageManager()` is
constructed with the default default_language 'en'; the chatbot engine
reads this default. -/
def default_language : String := "en"

/-! ## src/chatbot_engine.py — intents, context and the orchestrator -/

/-- ConversationIntent of src/chatbot_engine.py. -/
inductive ConversationIntent where
  | greeting
  | product_inquiry
  | pricing_question
  | technical_support
  | company_info
  | feature_explanation
  | comparison
  | how_to_start
  | contact_sales
  | general_chat
  deriving DecidableEq, Repr

/-- UserProfile of src/chatbot_engine.py. -/
inductive UserProfile where
  | new_merchant
  | existing_customer
  | technical_user
  | investor
  | partner
  | general
  deriving DecidableEq, Repr

/-- The intent-pattern table of CloudWalkChatbot (each regex as its literal
alternatives in preference order), in dict declaration order. -/
def intent_patterns : List (ConversationIntent × List (List Txt)) :=
  [(ConversationIntent.greeting,
    [(["hi", "hello", "hey", "ola", "olá", "oi", "hola"].map String.data)]),
   (ConversationIntent.product_inquiry,
    [(["infinitepay", "jim", "stratus", "product", "produto"].map
        String.data)]),
   (ConversationIntent.pricing_question,
    [(["price", "fee", "rate", "taxa", "preço", "custo",
       "quanto custa"].map String.data)])]

/-- CloudWalkChatbot.detect_intent: collect, in table order, every intent
one of whose patterns matches the lower-cased input; fall back to
general_chat when none does. -/
def detect_intent (user_input : Txt) : List ConversationIntent :=
  let input_lower := toLowerTxt user_input
  let detected_intents :=
    (intent_patterns.filter fun ip =>
      ip.2.any fun pattern => hasMatch pattern input_lower).map
      fun ip => ip.1
  if detected_intents.isEmpty then [ConversationIntent.general_chat]
  else detected_intents

/-- One entry of ConversationContext.conversation_history: a dict with
keys role and content. -/
structure HistoryEntry where
  role : String
  content : Txt
  deriving DecidableEq, Repr

/-- ConversationContext of src/chatbot_engine.py; datetimes are opaque Nat
timestamps and the metadata dict a list of pairs. -/
structure ConversationContext where
  session_id : String
  language : String
  user_profile : UserProfile
  current_product : Option String
  conversation_history : List HistoryEntry
  detected_intents : List ConversationIntent
  metadata : List (String × String)
  created_at : Nat
  last_interaction : Nat
  deriving DecidableEq, Repr

/-- The arguments of one CloudWalkKnowledgeBase.search call. -/
structure SearchArgs where
  query : Txt
  n_results : Nat
  filter_language : Option String
  filter_product : Option String
  filter_category : Option String
  deriving DecidableEq, Repr

/-- One formatted search result of CloudWalkKnowledgeBase.search. -/
structure RetrievedDoc where
  id : String
  content : Txt
  metadata : List (String × String)
  distance : Option ℚ
  deriving DecidableEq, Repr

/-- CloudWalkChatbot.search_knowledge: delegates to the knowledge base (the
external store, passed as `kb`) with n_results 3, the language filter set
exactly when context.language differs from 'en', and the product filter
from the context; filter_category is left at its default None. -/
def search_knowledge (kb : SearchArgs → List RetrievedDoc) (query : Txt)
    (context : ConversationContext) : List RetrievedDoc :=
  kb { query := query,
       n_results := 3,
       filter_language :=
         if context.language ≠ "en" then some context.language else none,
       filter_product := context.current_product,
       filter_category := none }

/-- CloudWalkChatbot.build_system_prompt: the persona f-string with
context.language interpolated. -/
def build_system_prompt (context : ConversationContext) : Txt :=
  ("You are CloudWalk\x27s AI assistant - friendly, knowledgeable, and passionate about helping merchants succeed!\nYour personality is warm and professional. You are enthusiastic about our mission to democratize payments.\nUse only a few emojis appropriately to add warmth. Speak in ").data
  ++ context.language.data
  ++ (".\n\nKey Products:\n- InfinitePay: Brazil\x27s revolutionary payment platform (0% Pix!).\n- JIM: Instant payments for the US (1.99% - lowest in market!).\n- STRATUS: Lightning-fast blockchain for global payments.\n").data

/-- A role-tagged message of the prompt (SystemMessage, HumanMessage,
AIMessage). -/
inductive Message where
  | system (content : Txt)
  | user (content : Txt)
  | assistant (content : Txt)
  deriving DecidableEq, Repr

/-- The history-to-message conversion of generate_response: role 'user'
becomes a HumanMessage, anything else an AIMessage. -/
def historyToMessage (msg : HistoryEntry) : Message :=
  if msg.role = "user" then Message.user msg.content
  else Message.assistant msg.content

/-- The Python slice history[-4:]: the last four entries, or all of them
when there are fewer. -/
def lastFour (history : List HistoryEntry) : List HistoryEntry :=
  history.drop (history.length - 4)

/-- Step 1 of generate_response: the confidence-gated language update.
When the detector's confidence exceeds 0.6 context.language is overwritten
with the detected language; otherwise the context is left as it is. -/
def context_after_language (user_input : Txt)
    (context : ConversationContext) : ConversationContext :=
  let lang_result := detect_language default_language user_input
  if lang_result.confidence > 6/10 then
    { context with language := lang_result.detected_language }
  else context

/-- The retrieval context block: the newline join of the contents of the
documents returned by search_knowledge. -/
def knowledge_context (kb : SearchArgs → List RetrievedDoc)
    (user_input : Txt) (context : ConversationContext) : Txt :=
  List.intercalate ['\n']
    ((search_knowledge kb user_input context).map RetrievedDoc.content)

/-- The second system message of generate_response. -/
def retrieval_system_message (kb : SearchArgs → List RetrievedDoc)
    (user_input : Txt) (context : ConversationContext) : Txt :=
  ("Use this information to answer the user\x27s question:\n").data
    ++ knowledge_context kb user_input context

/-- The message list generate_response assembles for the LLM: the two
system messages, the last four history entries converted to chat messages,
and the current user input. `context` is the context after the language
update of step 1. -/
def assembled_messages (kb : SearchArgs → List RetrievedDoc)
    (user_input : Txt) (context : ConversationContext) : List Message :=
  [Message.system (build_system_prompt context),
   Message.system (retrieval_system_message kb user_input context)]
  ++ (lastFour context.conversation_history).map historyToMessage
  ++ [Message.user user_input]

/-- The fixed apology returned when the LLM call raises. -/
def apology_message : Txt :=
  "I apologize, but I encountered an error. Please try again.".data

/-- The fixed message returned when the LLM was not configured. -/
def not_configured_message : Txt :=
  "The chatbot is not configured correctly. Missing API key.".data

/-- Python str.strip() on the response (ASCII whitespace). -/
def pyStrip (s : Txt) : Txt :=
  ((s.dropWhile isPySpace).reverse.dropWhile isPySpace).reverse

/-- CloudWalkChatbot.generate_response. `llm` is the external Groq model
(None when the API key was missing), modelled as a function from the
message list to either a reply content or a raised error; `kb` the
external knowledge store; `now` the datetime.now() of this turn. On
success the stripped reply is returned and the user/assistant pair is
appended to the history; on a raised error the fixed apology is returned
with the context exactly as it stood after step 1. -/
def generate_response (llm : Option (List Message → Except Unit Txt))
    (now : Nat) (user_input : Txt) (kb : SearchArgs → List RetrievedDoc)
    (context : ConversationContext) : Txt × ConversationContext :=
  match llm with
  | none => (not_configured_message, context)
  | some invoke =>
    let context1 := context_after_language user_input context
    let messages := assembled_messages kb user_input context1
    match invoke messages with
    | Except.ok content =>
      let response_text := pyStrip content
      (response_text,
       { context1 with
         conversation_history := context1.conversation_history
           ++ [{ role := "user", content := user_input },
               { role := "assistant", content := response_text }],
         last_interaction := now })
    | Except.error _ => (apology_message, context1)

/-! ## src/knowledge_base.py — documents and custom-knowledge insertion -/

/-- KnowledgeDocument of src/knowledge_base.py; last_updated is an opaque
Nat timestamp and the free-form metadata map a list of pairs. -/
structure KnowledgeDocument where
  id : String
  title : String
  content : String
  category : String
  subcategory : Option String
  tags : List String
  language : String
  product : Option String
  last_updated : Nat
  metadata : List (String × String)
  deriving DecidableEq, Repr

/-- The metadata dict _add_documents builds for one document. -/
structure DocMetadata where
  title : String
  category : String
  subcategory : String
  tags : String
  language : String
  product : String
  last_updated : Nat
  deriving DecidableEq, Repr

/-- The metadata construction of _add_documents: subcategory and product
default to the empty string, the tags are comma-joined. -/
def docMetadata (doc : KnowledgeDocument) : DocMetadata :=
  { title := doc.title,
    category := doc.category,
    subcategory := doc.subcategory.getD "",
    tags := String.intercalate "," doc.tags,
    language := doc.language,
    product := doc.product.getD "",
    last_updated := doc.last_updated }

/-- One stored entry of the chroma collection: id, document text and
metadata. -/
structure CollectionEntry where
  id : String
  document : String
  meta : DocMetadata
  deriving DecidableEq, Repr

/-- The chroma collection state. -/
structure Collection where
  entries : List CollectionEntry
  deriving DecidableEq, Repr

/-- Modelled from the spec: the external similarity-store collaborator
(the chromadb collection behind `self.collection.add`) is not code of this
repository; per §3 ("inserting a document whose id already exists in the
store is a no-op (idempotent load)") and §4.3 ("skips documents whose id
already exists") an add keeps the first entry per id and skips ids already
present, appending genuinely new entries in order. -/
def Collection.add (c : Collection) (new : List CollectionEntry) : Collection :=
  new.foldl
    (fun acc e =>
      if acc.entries.any fun x => x.id = e.id then acc
      else { entries := acc.entries ++ [e] })
    c

/-- CloudWalkKnowledgeBase._add_documents: returns unchanged on an empty
list, otherwise hands ids, contents and metadatas to the collection. -/
def _add_documents (c : Collection) (documents : List KnowledgeDocument) :
    Collection :=
  if documents.isEmpty then c
  else
    Collection.add c
      (documents.map fun doc =>
        { id := doc.id, document := doc.content, meta := docMetadata doc })

/-- CloudWalkKnowledgeBase._generate_id: the first 16 hex digits of the
md5 of the content. The hash itself lives in Python's hashlib, outside the
repository; it enters the embedding as the function parameter `md5hex16`,
of which the repository code uses only that it is a deterministic pure
function of the content. -/
def _generate_id (md5hex16 : String → String) (content : String) : String :=
  md5hex16 content

/-- CloudWalkKnowledgeBase.add_custom_knowledge: derives the id from
title_content, builds the document (kwargs may carry subcategory and
product; last_updated defaults to datetime.now(), the `now` parameter),
adds it and returns the id. -/
def add_custom_knowledge (md5hex16 : String → String) (now : Nat)
    (c : Collection) (title content category : String) (tags : List String)
    (language : String) (subcategory product : Option String) :
    String × Collection :=
  let doc_id := _generate_id md5hex16 (title ++ "_" ++ content)
  let document : KnowledgeDocument :=
    { id := doc_id,
      title := title,
      content := content,
      category := category,
      subcategory := subcategory,
      tags := tags,
      language := language,
      product := product,
      last_updated := now,
      metadata := [] }
  (doc_id, _add_documents c [document])

/-! ## Concrete fixtures for witnesses and counterexamples -/

/-- A fresh session context: default language en, empty history (what
init_chatbot_state constructs, with opaque id and timestamps). -/
def sampleContext : ConversationContext :=
  { session_id := "session-0",
    language := "en",
    user_profile := UserProfile.general,
    current_product := none,
    conversation_history := [],
    detected_intents := [],
    metadata := [],
    created_at := 0,
    last_interaction := 0 }

/-- An LLM collaborator whose invocation always raises. -/
def failing_llm : List Message → Except Unit Txt := fun _ => Except.error ()

/-- A knowledge store returning no documents. -/
def empty_kb : SearchArgs → List RetrievedDoc := fun _ => []

/-- A five-entry conversation history (three user turns, two replies). -/
def sampleHistory5 : List HistoryEntry :=
  [{ role := "user", content := "a".data },
   { role := "assistant", content := "b".data },
   { role := "user", content := "c".data },
   { role := "assistant", content := "d".data },
   { role := "user", content := "e".data }]

/-- `sampleContext` with the five-entry history. -/
def sampleContext5 : ConversationContext :=
  { sampleContext with conversation_history := sampleHistory5 }


/-! ## Theorems for the claims -/

/-- Claim C2, as stated, is false of the code: for the input
"Hello, what are your fees?" the pricing pattern does not match, because
its alternative `fee` is followed by the word character `s` in `fees`,
failing the trailing word boundary, and no other pricing alternative
occurs; so pricing_question is not in the detected intents. -/
theorem C2_counterexample_no_pricing_intent :
    ConversationIntent.pricing_question ∉
      detect_intent "Hello, what are your fees?".data := by decide

/-- Claim C2 amended: for the input "Hello, what are your fees?",
detect_intent returns exactly [greeting]; the pricing pattern fails on the
plural `fees` (its alternative `fee` has no trailing word boundary there),
so pricing_question is not detected. -/
theorem C2_fees_input_detects_greeting_only :
    detect_intent "Hello, what are your fees?".data =
      [ConversationIntent.greeting] := by decide

/-- Claim C3: calling add_custom_knowledge twice with the same title and
content (at any timestamps) yields the same id both times, and the second
call leaves the number of stored entries equal to the number after the
first call: the id is a pure function of title and content, and the store
skips an id already present. -/
theorem C3_add_custom_knowledge_idempotent (md5hex16 : String → String)
    (now1 now2 : Nat) (c : Collection) (title content category : String)
    (tags : List String) (language : String)
    (subcategory product : Option String) :
    (add_custom_knowledge md5hex16 now1 c title content category tags
        language subcategory product).1 =
      (add_custom_knowledge md5hex16 now2
        (add_custom_knowledge md5hex16 now1 c title content category tags
          language subcategory product).2 title content category tags
        language subcategory product).1 ∧
    (add_custom_knowledge md5hex16 now2
        (add_custom_knowledge md5hex16 now1 c title content category tags
          language subcategory product).2 title content category tags
        language subcategory product).2.entries.length =
      (add_custom_knowledge md5hex16 now1 c title content category tags
        language subcategory product).2.entries.length := by
  constructor
  · rfl
  · have key : ∀ (c' : Collection) (e : CollectionEntry),
        ((Collection.add c' [e]).entries.any fun x => x.id = e.id) = true := by
      intro c' e
      unfold Collection.add
      simp only [List.foldl]
      by_cases h : (c'.entries.any fun x => x.id = e.id) = true
      · simp [h]
      · simp [h]
    have skip : ∀ (c' : Collection) (e e' : CollectionEntry), e.id = e'.id →
        ((c'.entries.any fun x => x.id = e.id) = true) →
        Collection.add c' [e'] = c' := by
      intro c' e e' hid h
      unfold Collection.add
      simp only [List.foldl]
      rw [hid] at h
      simp [h]
    have twice : ∀ (i d1 d2 : String) (m1 m2 : DocMetadata) (c' : Collection),
        ((Collection.add (Collection.add c' [⟨i, d1, m1⟩])
            [⟨i, d2, m2⟩])).entries.length =
          (Collection.add c' [⟨i, d1, m1⟩]).entries.length := by
      intro i d1 d2 m1 m2 c'
      rw [skip _ ⟨i, d1, m1⟩ ⟨i, d2, m2⟩ rfl (key c' ⟨i, d1, m1⟩)]
    simp only [add_custom_knowledge, _add_documents, _generate_id,
      List.isEmpty_cons, List.map_cons, List.map_nil, Bool.false_eq_true,
      if_false]
    exact twice _ _ _ _ _ _

/-- Claim C4: search_knowledge queries the store with the user input as
query, at most 3 results, the language filter equal to context.language
exactly when that differs from the configured default language (and no
constraint otherwise), the product filter equal to context.current_product,
and no category constraint. -/
theorem C4_search_knowledge_arguments (kb : SearchArgs → List RetrievedDoc)
    (query : Txt) (context : ConversationContext) :
    search_knowledge kb query context =
      kb { query := query,
           n_results := 3,
           filter_language :=
             if context.language = default_language then none
             else some context.language,
           filter_product := context.current_product,
           filter_category := none } := by
  have harg : (if context.language ≠ "en" then some context.language
      else none) =
      if context.language = default_language then none
      else some context.language := by
    by_cases h : context.language = "en" <;> simp [h, default_language]
  simp only [search_knowledge, harg]

/-- Claim C5: detect_intent always returns a non-empty list without
duplicates, and when no pattern of any intent matches the lower-cased
input the result is exactly [general_chat]. -/
theorem C5_detect_intent_nonempty_nodup_fallback (user_input : Txt) :
    detect_intent user_input ≠ [] ∧ (detect_intent user_input).Nodup ∧
    ((∀ ip ∈ intent_patterns, ∀ pattern ∈ ip.2,
        hasMatch pattern (toLowerTxt user_input) = false) →
      detect_intent user_input = [ConversationIntent.general_chat]) := by
  have hkeys : (intent_patterns.map fun ip => ip.1).Nodup := by decide
  have hsub : ((intent_patterns.filter fun ip =>
        ip.2.any fun pattern =>
          hasMatch pattern (toLowerTxt user_input)).map fun ip => ip.1).Sublist
      (intent_patterns.map fun ip => ip.1) :=
    (List.filter_sublist _).map _
  refine ⟨?_, ?_, ?_⟩
  · unfold detect_intent
    by_cases h : ((intent_patterns.filter fun ip =>
        ip.2.any fun pattern =>
          hasMatch pattern (toLowerTxt user_input)).map
          fun ip => ip.1).isEmpty
    · simp [h]
    · simp only [h, if_false, Bool.false_eq_true]
      intro hnil
      rw [hnil] at h
      simp at h
  · unfold detect_intent
    by_cases h : ((intent_patterns.filter fun ip =>
        ip.2.any fun pattern =>
          hasMatch pattern (toLowerTxt user_input)).map
          fun ip => ip.1).isEmpty
    · simp [h]
    · simp only [h, if_false, Bool.false_eq_true]
      exact hkeys.sublist hsub
  · intro hnone
    have hfilter : (intent_patterns.filter fun ip =>
        ip.2.any fun pattern =>
          hasMatch pattern (toLowerTxt user_input)) = [] := by
      rw [List.filter_eq_nil_iff]
      intro ip hip
      simp only [List.any_eq_true, not_exists, not_and]
      intro pattern hpat
      simp [hnone ip hip pattern hpat]
    unfold detect_intent
    simp [hfilter]

/-- Claim C10: set_language with a code that is not a configured profile
key leaves the LanguageManager unchanged, and after any sequence of
set_language calls starting from the constructor the current language is
the constructor's default or a configured profile key. -/
theorem C10_set_language_invalid_noop_invariant (m : LanguageManager)
    (language : String) (d : String) (codes : List String) :
    (language ∉ languagePatternKeys → set_language m language = m) ∧
    ((codes.foldl set_language (LanguageManager.init d)).current_language = d ∨
      (codes.foldl set_language
        (LanguageManager.init d)).current_language ∈ languagePatternKeys) := by
  constructor
  · intro h
    unfold set_language
    simp [h]
  · have inv : ∀ (cs : List String) (m' : LanguageManager),
        (m'.current_language = d ∨
          m'.current_language ∈ languagePatternKeys) →
        ((cs.foldl set_language m').current_language = d ∨
          (cs.foldl set_language m').current_language ∈
            languagePatternKeys) := by
      intro cs
      induction cs with
      | nil => intro m' h; exact h
      | cons c rest ih =>
        intro m' h
        simp only [List.foldl_cons]
        apply ih
        unfold set_language
        by_cases hc : c ∈ languagePatternKeys
        · simp [hc]
        · simp [hc, h]
    exact inv codes (LanguageManager.init d) (Or.inl rfl)

/-- Each language's normalized score is nonnegative. -/
theorem normScore_nonneg (patterns : List (List Txt)) (stops : List Txt)
    (text : Txt) : 0 ≤ normScore patterns stops text := by
  unfold normScore
  split
  · positivity
  · exact le_refl 0

/-- Claim C6: whenever both configured languages score zero (in particular
on token-free input, or input matching no pattern and no stop word),
detect_language returns the configured default language with confidence
exactly 0 and no alternative. -/
theorem C6_zero_scores_default_language (d : String) (text : Txt)
    (hPt : normScore ptPatterns ptStopWords text = 0)
    (hEn : normScore enPatterns enStopWords text = 0) :
    detect_language d text =
      { detected_language := d, confidence := 0,
        alternative_language := none, alternative_confidence := none } := by
  simp [detect_language, hPt, hEn]

/-- Witness for C6 at the concrete zero-signal input "xyzzy". -/
theorem C6_witness_zero_scores :
    detect_language "en" "xyzzy".data =
      { detected_language := "en", confidence := 0,
        alternative_language := none, alternative_confidence := none } :=
  C6_zero_scores_default_language "en" "xyzzy".data
    (by
      have h1 : patternMatchTotal ptPatterns "xyzzy".data = 0 := by decide
      have h2 : stopWordTotal ptStopWords "xyzzy".data = 0 := by decide
      have h3 : tokenCount "xyzzy".data = 1 := by decide
      simp only [normScore, h1, h2, h3]
      norm_num)
    (by
      have h1 : patternMatchTotal enPatterns "xyzzy".data = 0 := by decide
      have h2 : stopWordTotal enStopWords "xyzzy".data = 0 := by decide
      have h3 : tokenCount "xyzzy".data = 1 := by decide
      simp only [normScore, h1, h2, h3]
      norm_num)

/-- Claim C7: the message list sent to the LLM is the two system messages,
then the last four history entries (all of them when fewer than four) in
their original chronological order, then the new user input as the final
message; the slice is a suffix of the history, of length exactly 4 when
the history has at least 4 entries. -/
theorem C7_prompt_last_four_history (kb : SearchArgs → List RetrievedDoc)
    (user_input : Txt) (context : ConversationContext) :
    assembled_messages kb user_input context =
      Message.system (build_system_prompt context) ::
        Message.system (retrieval_system_message kb user_input context) ::
        ((lastFour context.conversation_history).map historyToMessage ++
          [Message.user user_input]) ∧
    context.conversation_history.take
        (context.conversation_history.length - 4) ++
      lastFour context.conversation_history =
        context.conversation_history ∧
    (4 ≤ context.conversation_history.length →
      (lastFour context.conversation_history).length = 4) ∧
    (context.conversation_history.length < 4 →
      lastFour context.conversation_history =
        context.conversation_history) := by
  refine ⟨rfl, List.take_append_drop _ _, ?_, ?_⟩
  · intro h
    unfold lastFour
    rw [List.length_drop]
    omega
  · intro h
    unfold lastFour
    have h0 : context.conversation_history.length - 4 = 0 := by omega
    rw [h0, List.drop_zero]

/-- Claim C9: at equal token count, a second input with at least as many
pattern matches and at least as many stop-word matches for a language
profile receives a normalized score at least as large: the score
(2 * pattern matches + stop-word matches) / token count is monotone in the
match counts at fixed length. -/
theorem C9_score_monotone (patterns : List (List Txt)) (stops : List Txt)
    (t1 t2 : Txt)
    (hTok : tokenCount t1 = tokenCount t2)
    (hPat : patternMatchTotal patterns t1 ≤ patternMatchTotal patterns t2)
    (hStop : stopWordTotal stops t1 ≤ stopWordTotal stops t2) :
    normScore patterns stops t1 ≤ normScore patterns stops t2 := by
  unfold normScore
  by_cases h : tokenCount t1 > 0
  · rw [if_pos h, if_pos (hTok ▸ h), ← hTok]
    have hc : (0 : ℚ) < (tokenCount t1 : ℚ) := by exact_mod_cast h
    have hnum : ((2 * patternMatchTotal patterns t1 +
        stopWordTotal stops t1 : ℕ) : ℚ) ≤
        ((2 * patternMatchTotal patterns t2 +
          stopWordTotal stops t2 : ℕ) : ℚ) := by
      exact_mod_cast by omega
    exact div_le_div_of_nonneg_right hnum hc.le
  · rw [if_neg h, if_neg (hTok ▸ h)]

/-- Witness for C9: replacing a filler token with the pattern word hi at
equal length does not decrease the en score. -/
theorem C9_witness_score_monotone :
    normScore enPatterns enStopWords "xx yy".data ≤
      normScore enPatterns enStopWords "hi yy".data :=
  C9_score_monotone enPatterns enStopWords "xx yy".data "hi yy".data
    (by decide) (by decide) (by decide)

/-- Claim C8: every detection result has confidence in [0,1], its
alternative confidence (when present) in [0,1], and an alternative
language only if the runner-up score is at least 70% of the top score. -/
theorem C8_detection_result_invariants (d : String) (text : Txt) :
    0 ≤ (detect_language d text).confidence ∧
    (detect_language d text).confidence ≤ 1 ∧
    (match (detect_language d text).alternative_confidence with
     | some ac => 0 ≤ ac ∧ ac ≤ 1
     | none => True) ∧
    ((detect_language d text).alternative_language = none ∨
      (7/10 : ℚ) * max (normScore ptPatterns ptStopWords text)
          (normScore enPatterns enStopWords text) ≤
        min (normScore ptPatterns ptStopWords text)
          (normScore enPatterns enStopWords text)) := by
  have h0Pt := normScore_nonneg ptPatterns ptStopWords text
  have h0En := normScore_nonneg enPatterns enStopWords text
  simp only [detect_language]
  set sPt := normScore ptPatterns ptStopWords text with hsPt
  set sEn := normScore enPatterns enStopWords text with hsEn
  have conf_bounds : ∀ x : ℚ, 0 ≤ x →
      0 ≤ min (x / (1/2 : ℚ)) 1 ∧ min (x / (1/2 : ℚ)) 1 ≤ 1 := by
    intro x hx
    constructor
    · apply le_min
      · positivity
      · norm_num
    · exact min_le_right _ _
  by_cases hgt : sEn > sPt
  · rw [if_pos hgt]
    simp only []
    by_cases htop : sEn = 0
    · rw [if_pos htop]
      norm_num
    · rw [if_neg htop]
      have hEnPos : 0 < sEn := lt_of_le_of_ne h0En (Ne.symm htop)
      have hmax : max sPt sEn = sEn := max_eq_right hgt.le
      have hmin : min sPt sEn = sPt := min_eq_left hgt.le
      by_cases halt : sPt > 0
      · rw [if_pos halt]
        by_cases hr : sPt / sEn > 7/10
        · rw [if_pos hr]
          refine ⟨(conf_bounds sEn h0En).1, (conf_bounds sEn h0En).2, ?_, ?_⟩
          · exact ⟨(conf_bounds sPt h0Pt).1, (conf_bounds sPt h0Pt).2⟩
          · right
            rw [hmax, hmin]
            rw [gt_iff_lt, lt_div_iff hEnPos] at hr
            linarith
        · rw [if_neg hr]
          exact ⟨(conf_bounds sEn h0En).1, (conf_bounds sEn h0En).2,
            trivial, Or.inl rfl⟩
      · rw [if_neg halt]
        exact ⟨(conf_bounds sEn h0En).1, (conf_bounds sEn h0En).2,
          trivial, Or.inl rfl⟩
  · rw [if_neg hgt]
    simp only []
    push_neg at hgt
    by_cases htop : sPt = 0
    · rw [if_pos htop]
      norm_num
    · rw [if_neg htop]
      have hPtPos : 0 < sPt := lt_of_le_of_ne h0Pt (Ne.symm htop)
      have hmax : max sPt sEn = sPt := max_eq_left hgt
      have hmin : min sPt sEn = sEn := min_eq_right hgt
      by_cases halt : sEn > 0
      · rw [if_pos halt]
        by_cases hr : sEn / sPt > 7/10
        · rw [if_pos hr]
          refine ⟨(conf_bounds sPt h0Pt).1, (conf_bounds sPt h0Pt).2, ?_, ?_⟩
          · exact ⟨(conf_bounds sEn h0En).1, (conf_bounds sEn h0En).2⟩
          · right
            rw [hmax, hmin]
            rw [gt_iff_lt, lt_div_iff hPtPos] at hr
            linarith
        · rw [if_neg hr]
          exact ⟨(conf_bounds sPt h0Pt).1, (conf_bounds sPt h0Pt).2,
            trivial, Or.inl rfl⟩
      · rw [if_neg halt]
        exact ⟨(conf_bounds sPt h0Pt).1, (conf_bounds sPt h0Pt).2,
          trivial, Or.inl rfl⟩

/-- Claim C1, as stated, is false of the code: the confidence-gated
language update of step 1 runs before the LLM call, so a failing call can
still leave the context mutated. At the Portuguese input "olá obrigado"
the detector returns pt-BR with confidence 1 > 0.6, the always-failing
LLM yields the fixed apology, and the returned context's language field
has changed from en to pt-BR. -/
theorem C1_counterexample_language_mutated_on_failure :
    (generate_response (some failing_llm) 0 "olá obrigado".data empty_kb
        sampleContext).1 = apology_message ∧
    (generate_response (some failing_llm) 0 "olá obrigado".data empty_kb
        sampleContext).2.language ≠ sampleContext.language := by
  have hdet : detect_language default_language "olá obrigado".data =
      { detected_language := "pt-BR", confidence := 1 } := by
    have hPt : normScore ptPatterns ptStopWords "olá obrigado".data = 2 := by
      have h1 : patternMatchTotal ptPatterns "olá obrigado".data = 2 := by
        decide
      have h2 : stopWordTotal ptStopWords "olá obrigado".data = 0 := by decide
      have h3 : tokenCount "olá obrigado".data = 2 := by decide
      simp only [normScore, h1, h2, h3]
      norm_num
    have hEn : normScore enPatterns enStopWords "olá obrigado".data = 0 := by
      have h1 : patternMatchTotal enPatterns "olá obrigado".data = 0 := by
        decide
      have h2 : stopWordTotal enStopWords "olá obrigado".data = 0 := by decide
      have h3 : tokenCount "olá obrigado".data = 2 := by decide
      simp only [normScore, h1, h2, h3]
      norm_num
    simp only [detect_language, hPt, hEn]
    norm_num
  have hctx : context_after_language "olá obrigado".data sampleContext =
      { sampleContext with language := "pt-BR" } := by
    simp only [context_after_language, hdet]
    rw [if_pos (by norm_num : (1 : ℚ) > 6/10)]
  constructor
  · simp [generate_response, failing_llm]
  · simp only [generate_response, failing_llm, hctx]
    decide

/-- Claim C1 amended: when the LLM invocation raises, generate_response
returns the fixed apology string together with the context exactly as it
stood after the confidence-gated language update of step 1; in particular
conversation_history, last_interaction and every field other than language
keep their values from before the call (language may have been overwritten
by the detector before the call was attempted). -/
theorem C1_generate_response_failure_frame
    (invoke : List Message → Except Unit Txt) (now : Nat) (user_input : Txt)
    (kb : SearchArgs → List RetrievedDoc) (context : ConversationContext)
    (hfail : ∀ msgs, invoke msgs = Except.error ()) :
    generate_response (some invoke) now user_input kb context =
      (apology_message, context_after_language user_input context) ∧
    (context_after_language user_input context).conversation_history =
      context.conversation_history ∧
    (context_after_language user_input context).last_interaction =
      context.last_interaction ∧
    (context_after_language user_input context).session_id =
      context.session_id ∧
    (context_after_language user_input context).user_profile =
      context.user_profile ∧
    (context_after_language user_input context).current_product =
      context.current_product ∧
    (context_after_language user_input context).detected_intents =
      context.detected_intents ∧
    (context_after_language user_input context).metadata =
      context.metadata ∧
    (context_after_language user_input context).created_at =
      context.created_at := by
  refine ⟨?_, ?_, ?_, ?_, ?_, ?_, ?_, ?_, ?_⟩
  · simp only [generate_response, hfail]
  all_goals
    simp only [context_after_language]
    split <;> rfl

/-- Witness for the amended C1 at an always-failing LLM and a fresh
context. -/
theorem C1_witness_failure_frame :
    generate_response (some failing_llm) 0 "hello there".data empty_kb
        sampleContext =
      (apology_message,
        context_after_language "hello there".data sampleContext) :=
  (C1_generate_response_failure_frame failing_llm 0 "hello there".data
    empty_kb sampleContext (fun _ => rfl)).1
